import Mathlib

/-!
Shallow embedding of the rust_alpha interpreter core, translated from
`src/base.rs` and `src/instructions.rs`.

Modelling conventions:
* Rust `i32` values are modelled as `Int` with the i32 range kept
  explicit: an arithmetic result outside `[-2^31, 2^31)` is an abort,
  rendered as `none` (the checked profile panics there; release builds
  wrap `+`, `-`, `*` instead, while a division overflow aborts in every
  profile), so the in-range results are exactly those on which all build
  profiles agree.  Division truncates toward zero (`Int.tdiv`); a zero
  divisor aborts in every profile.
* Rust functions taking `&mut RuntimeArgs` are embedded as state passing:
  each returns the (possibly mutated) state next to its `Result`.  A Rust
  `?` early return propagates the state as it is at that point, which is how
  the embedding makes atomicity claims meaningful.
* `Vec` is a `List` (push appends at the end, pop takes from the end);
  `HashMap` is an association list whose iteration order is its stored
  order (the Rust iteration order is arbitrary; no code sorts it).
* Console output of the `print_*` functions is modelled as the list of
  emitted lines (the constant banner lines around the loop are omitted).
* `runtime.rs` (`ControlFlow`, `Runner`) is not part of the sources; the
  definitions marked "Modelled from the spec" reconstruct it from the
  design document.
-/

namespace RustAlpha

/-- Ways of comparing two values, from `base.rs` (`enum Comparison`). -/
inductive Comparison where
  | Less
  | LessOrEqual
  | Equal
  | MoreOrEqual
  | More
deriving DecidableEq

/-- Embeds `Comparison::cmp` from `base.rs`: compares two values with the selected
method of comparison. -/
def Comparison.cmp : Comparison → Int → Int → Bool
  | .Less, x, y => decide (x < y)
  | .LessOrEqual, x, y => decide (x ≤ y)
  | .Equal, x, y => decide (x = y)
  | .MoreOrEqual, x, y => decide (x ≥ y)
  | .More, x, y => decide (x > y)

/-- Arithmetic operators, from `base.rs` (`enum Operation`). -/
inductive Operation where
  | Plus
  | Minus
  | Multiplication
  | Division
deriving DecidableEq

/-- Smallest `i32` value. -/
def i32Min : Int := -2147483648

/-- Largest `i32` value. -/
def i32Max : Int := 2147483647

/-- Whether an integer fits in `i32`. -/
def inI32 (z : Int) : Bool := decide (i32Min ≤ z) && decide (z ≤ i32Max)

/-- Embeds `Operation::calc` from `base.rs`.  The Rust body is `x+y`, `x-y`,
`x*y`, `x/y` on `i32`.  A result that does not fit in `i32` is an abort,
rendered as `none`: checked builds panic on `+`, `-`, `*` overflow (release
builds wrap instead), and the `i32::MIN / -1` division overflow panics in
every profile.  `x/y` truncates toward zero and panics when `y = 0`. -/
def Operation.calc : Operation → Int → Int → Option Int
  | .Plus, x, y => if inI32 (x + y) then some (x + y) else none
  | .Minus, x, y => if inI32 (x - y) then some (x - y) else none
  | .Multiplication, x, y => if inI32 (x * y) then some (x * y) else none
  | .Division, x, y =>
    if y = 0 then none
    else if inI32 (Int.tdiv x y) then some (Int.tdiv x y) else none

/-- A single accumulator, from `base.rs`. -/
structure Accumulator where
  id : Int
  data : Option Int
deriving DecidableEq

/-- A single memory cell, from `base.rs`. -/
structure MemoryCell where
  label : String
  data : Option Int
deriving DecidableEq

/-- The runtime state container (`RuntimeArgs` of `runtime.rs`).  Its three
fields and their types are fixed by every use in `instructions.rs`:
`accumulators: Vec<Accumulator>`, `memory_cells: HashMap<&str, MemoryCell>`,
`stack: Vec<i32>`. -/
structure RuntimeArgs where
  accumulators : List Accumulator
  memory_cells : List (String × MemoryCell)
  stack : List Int
deriving DecidableEq

/-- The control-flow state (`ControlFlow` of `runtime.rs`).  Its two fields
are fixed by the uses in `instructions.rs`:
`instruction_labels: HashMap<&str, usize>` and
`next_instruction_index: usize`. -/
structure ControlFlow where
  instruction_labels : List (String × Nat)
  next_instruction_index : Nat
deriving DecidableEq

/-- Outcome of running one instruction: `Ok(())`, `Err(msg)`, or a Rust
panic (which aborts and returns nothing to the caller). -/
inductive RunResult where
  | okR
  | errR (msg : String)
  | panicR
deriving DecidableEq

/-- Returns `true` exactly when the outcome is a returned `Err` value. -/
def RunResult.isError : RunResult → Bool
  | .errR _ => true
  | _ => false

/-- The closed instruction set of `instructions.rs` (`enum Instruction`).
Constructor names, including the `Assing...` typo, follow the source. -/
inductive Instruction where
  | Push
  | Pop
  | AssignAccumulatorValue (a_idx : Nat) (value : Int)
  | AssignAccumulatorValueFromAccumulator (a_idx_a a_idx_b : Nat)
  | AssignAccumulatorValueFromMemoryCell (a_idx : Nat) (label : String)
  | AssignMemoryCellValue (label : String) (value : Int)
  | AssignMemoryCellValueFromAccumulator (label : String) (a_idx : Nat)
  | AssingMemoryCellValueFromMemoryCell (label_a label_b : String)
  | CalcAccumulatorWithConstant (op : Operation) (a_idx : Nat) (value : Int)
  | CalcAccumulatorWithAccumulator (op : Operation) (a_idx_a a_idx_b : Nat)
  | CalcAccumulatorWithAccumulators (op : Operation) (a_idx_a a_idx_b a_idx_c : Nat)
  | CalcAccumulatorWithMemoryCell (op : Operation) (a_idx : Nat) (label : String)
  | CalcAccumulatorWithMemoryCells (op : Operation) (a_idx : Nat) (label_a label_b : String)
  | CalcMemoryCellWithMemoryCellConstant (op : Operation) (label_a label_b : String) (value : Int)
  | CalcMemoryCellWithMemoryCellAccumulator (op : Operation) (label_a label_b : String) (a_idx : Nat)
  | CalcMemoryCellWithMemoryCells (op : Operation) (label_a label_b label_c : String)
  | Goto (label : String)
  | GotoIfAccumulator (c : Comparison) (label : String) (a_idx_a a_idx_b : Nat)
  | GotoIfConstant (c : Comparison) (label : String) (a_idx : Nat) (value : Int)
  | GotoIfMemoryCell (c : Comparison) (label : String) (a_idx : Nat) (mcl : String)
  | PrintAccumulators
  | PrintMemoryCells
  | PrintStack
deriving DecidableEq

/-- Embeds `assert_accumulator_exists` from `instructions.rs`: tests whether the
accumulator with `index` exists. -/
def assert_accumulator_exists (r : RuntimeArgs) (index : Nat) : Except String Unit :=
  match r.accumulators.get? index with
  | some _ => Except.ok ()
  | none => Except.error ("Accumulator with index " ++ toString index ++ " does not exist!")

/-- Embeds `assert_accumulator_contains_value` from `instructions.rs`: tests whether
the accumulator with `index` exists and contains a value; returns the value. -/
def assert_accumulator_contains_value (r : RuntimeArgs) (index : Nat) : Except String Int :=
  match r.accumulators.get? index with
  | some value =>
    match value.data with
    | some d => Except.ok d
    | none => Except.error ("Accumulator with index " ++ toString index ++ " does not contain data!")
  | none => Except.error ("Accumulator with index " ++ toString index ++ " does not exist!")

/-- Embeds `assert_memory_cell_exists` from `instructions.rs`. -/
def assert_memory_cell_exists (r : RuntimeArgs) (label : String) : Except String Unit :=
  match r.memory_cells.lookup label with
  | some _ => Except.ok ()
  | none => Except.error ("Memory cell with label " ++ label ++ " does not exist!")

/-- Embeds `assert_memory_cell_contains_value` from `instructions.rs`. -/
def assert_memory_cell_contains_value (r : RuntimeArgs) (label : String) : Except String Int :=
  match r.memory_cells.lookup label with
  | some value =>
    match value.data with
    | some d => Except.ok d
    | none => Except.error ("Memory cell with label " ++ label ++ " does not contain data!")
  | none => Except.error ("Memory cell with label " ++ label ++ " does not exist!")

/-- The write `accumulators.get_mut(i).unwrap().data = Some(v)`.  All call
sites guard the index with an assert first, so the `none` fallback (identity)
is unreachable there. -/
def setAccumulatorData (accs : List Accumulator) (i : Nat) (v : Int) : List Accumulator :=
  match accs.get? i with
  | some a => accs.set i { a with data := some v }
  | none => accs

/-- The write `memory_cells.get_mut(label).unwrap().data = Some(v)`: updates
the (unique) entry with the given key. -/
def setMemoryCellData : List (String × MemoryCell) → String → Int → List (String × MemoryCell)
  | [], _, _ => []
  | kv :: rest, label, v =>
    if kv.1 = label then (kv.1, { kv.2 with data := some v }) :: rest
    else kv :: setMemoryCellData rest label v

/-- Embeds `push` from `instructions.rs`: `stack.push(accumulators[0].data.unwrap_or(0))`
after checking that accumulator 0 exists. -/
def push (r : RuntimeArgs) : RunResult × RuntimeArgs :=
  match assert_accumulator_exists r 0 with
  | Except.error e => (.errR e, r)
  | Except.ok _ =>
    match r.accumulators.get? 0 with
    | some a => (.okR, { r with stack := r.stack ++ [a.data.getD 0] })
    | none => (.panicR, r)

/-- Embeds `pop` from `instructions.rs`:
`accumulators[0].data = Some(stack.pop().unwrap_or(0))` after checking that
accumulator 0 exists *and contains a value*. -/
def pop (r : RuntimeArgs) : RunResult × RuntimeArgs :=
  match assert_accumulator_contains_value r 0 with
  | Except.error e => (.errR e, r)
  | Except.ok _ =>
    (.okR, { r with
      accumulators := setAccumulatorData r.accumulators 0 (r.stack.getLastD 0),
      stack := r.stack.dropLast })

/-- Embeds `assign_accumulator_value` from `instructions.rs` (**a := x**). -/
def assign_accumulator_value (r : RuntimeArgs) (a_idx : Nat) (value : Int) :
    RunResult × RuntimeArgs :=
  match assert_accumulator_exists r a_idx with
  | Except.error e => (.errR e, r)
  | Except.ok _ => (.okR, { r with accumulators := setAccumulatorData r.accumulators a_idx value })

/-- Embeds `assign_accumulator_value_from_accumulator` from `instructions.rs`
(**a := b**).  Note the source checks the *source* accumulator first. -/
def assign_accumulator_value_from_accumulator (r : RuntimeArgs) (a_idx_a a_idx_b : Nat) :
    RunResult × RuntimeArgs :=
  match assert_accumulator_contains_value r a_idx_b with
  | Except.error e => (.errR e, r)
  | Except.ok src =>
    match assert_accumulator_exists r a_idx_a with
    | Except.error e => (.errR e, r)
    | Except.ok _ => (.okR, { r with accumulators := setAccumulatorData r.accumulators a_idx_a src })

/-- Embeds `assign_accumulator_value_from_memory_cell` from `instructions.rs`
(**a := p(i)**). -/
def assign_accumulator_value_from_memory_cell (r : RuntimeArgs) (a_idx : Nat) (label : String) :
    RunResult × RuntimeArgs :=
  match assert_accumulator_exists r a_idx with
  | Except.error e => (.errR e, r)
  | Except.ok _ =>
    match assert_memory_cell_contains_value r label with
    | Except.error e => (.errR e, r)
    | Except.ok value => (.okR, { r with accumulators := setAccumulatorData r.accumulators a_idx value })

/-- Embeds `assign_memory_cell_value` from `instructions.rs` (**p(i) := x**). -/
def assign_memory_cell_value (r : RuntimeArgs) (label : String) (value : Int) :
    RunResult × RuntimeArgs :=
  match assert_memory_cell_exists r label with
  | Except.error e => (.errR e, r)
  | Except.ok _ => (.okR, { r with memory_cells := setMemoryCellData r.memory_cells label value })

/-- Embeds `assign_memory_cell_value_from_accumulator` from `instructions.rs`
(**p(i) := a**). -/
def assign_memory_cell_value_from_accumulator (r : RuntimeArgs) (label : String) (a_idx : Nat) :
    RunResult × RuntimeArgs :=
  match assert_memory_cell_exists r label with
  | Except.error e => (.errR e, r)
  | Except.ok _ =>
    match assert_accumulator_contains_value r a_idx with
    | Except.error e => (.errR e, r)
    | Except.ok value => (.okR, { r with memory_cells := setMemoryCellData r.memory_cells label value })

/-- Embeds `assign_memory_cell_value_from_memory_cell` from `instructions.rs`
(**p(i) := p(j)**). -/
def assign_memory_cell_value_from_memory_cell (r : RuntimeArgs) (label_a label_b : String) :
    RunResult × RuntimeArgs :=
  match assert_memory_cell_exists r label_a with
  | Except.error e => (.errR e, r)
  | Except.ok _ =>
    match assert_memory_cell_contains_value r label_b with
    | Except.error e => (.errR e, r)
    | Except.ok value => (.okR, { r with memory_cells := setMemoryCellData r.memory_cells label_a value })

/-- Embeds `calc_accumulator_with_constant` from `instructions.rs` (**a := a op x**). -/
def calc_accumulator_with_constant (r : RuntimeArgs) (op : Operation) (a_idx : Nat) (value : Int) :
    RunResult × RuntimeArgs :=
  match assert_accumulator_contains_value r a_idx with
  | Except.error e => (.errR e, r)
  | Except.ok v =>
    match op.calc v value with
    | none => (.panicR, r)
    | some res => (.okR, { r with accumulators := setAccumulatorData r.accumulators a_idx res })

/-- Embeds `calc_accumulator_with_accumulator` from `instructions.rs` (**a := a op b**). -/
def calc_accumulator_with_accumulator (r : RuntimeArgs) (op : Operation) (a_idx_a a_idx_b : Nat) :
    RunResult × RuntimeArgs :=
  match assert_accumulator_contains_value r a_idx_a with
  | Except.error e => (.errR e, r)
  | Except.ok a =>
    match assert_accumulator_contains_value r a_idx_b with
    | Except.error e => (.errR e, r)
    | Except.ok b =>
      match op.calc a b with
      | none => (.panicR, r)
      | some res => (.okR, { r with accumulators := setAccumulatorData r.accumulators a_idx_a res })

/-- Embeds `calc_accumulator_with_accumulators` from `instructions.rs`
(**a := b op c**).  The source checks existence of the destination first. -/
def calc_accumulator_with_accumulators (r : RuntimeArgs) (op : Operation)
    (a_idx_a a_idx_b a_idx_c : Nat) : RunResult × RuntimeArgs :=
  match assert_accumulator_exists r a_idx_a with
  | Except.error e => (.errR e, r)
  | Except.ok _ =>
    match assert_accumulator_contains_value r a_idx_b with
    | Except.error e => (.errR e, r)
    | Except.ok a =>
      match assert_accumulator_contains_value r a_idx_c with
      | Except.error e => (.errR e, r)
      | Except.ok b =>
        match op.calc a b with
        | none => (.panicR, r)
        | some res => (.okR, { r with accumulators := setAccumulatorData r.accumulators a_idx_a res })

/-- Embeds `calc_accumulator_with_memory_cell` from `instructions.rs`
(**a := a op p(i)**). -/
def calc_accumulator_with_memory_cell (r : RuntimeArgs) (op : Operation) (a_idx : Nat)
    (label : String) : RunResult × RuntimeArgs :=
  match assert_accumulator_contains_value r a_idx with
  | Except.error e => (.errR e, r)
  | Except.ok a =>
    match assert_memory_cell_contains_value r label with
    | Except.error e => (.errR e, r)
    | Except.ok b =>
      match op.calc a b with
      | none => (.panicR, r)
      | some res => (.okR, { r with accumulators := setAccumulatorData r.accumulators a_idx res })

/-- Embeds `calc_accumulator_with_memory_cells` from `instructions.rs`
(**a := p(i) op p(j)**).  Existence of the destination is checked first. -/
def calc_accumulator_with_memory_cells (r : RuntimeArgs) (op : Operation) (a_idx : Nat)
    (label_a label_b : String) : RunResult × RuntimeArgs :=
  match assert_accumulator_exists r a_idx with
  | Except.error e => (.errR e, r)
  | Except.ok _ =>
    match assert_memory_cell_contains_value r label_a with
    | Except.error e => (.errR e, r)
    | Except.ok a =>
      match assert_memory_cell_contains_value r label_b with
      | Except.error e => (.errR e, r)
      | Except.ok b =>
        match op.calc a b with
        | none => (.panicR, r)
        | some res => (.okR, { r with accumulators := setAccumulatorData r.accumulators a_idx res })

/-- Embeds `calc_memory_cell_with_memory_cell_constant` from `instructions.rs`
(**p(i) := p(j) op x**). -/
def calc_memory_cell_with_memory_cell_constant (r : RuntimeArgs) (op : Operation)
    (label_a label_b : String) (value : Int) : RunResult × RuntimeArgs :=
  match assert_memory_cell_exists r label_a with
  | Except.error e => (.errR e, r)
  | Except.ok _ =>
    match assert_memory_cell_contains_value r label_b with
    | Except.error e => (.errR e, r)
    | Except.ok a =>
      match op.calc a value with
      | none => (.panicR, r)
      | some res => (.okR, { r with memory_cells := setMemoryCellData r.memory_cells label_a res })

/-- Embeds `calc_memory_cell_with_memory_cell_accumulator` from `instructions.rs`
(**p(i) := p(j) op a**). -/
def calc_memory_cell_with_memory_cell_accumulator (r : RuntimeArgs) (op : Operation)
    (label_a label_b : String) (a_idx : Nat) : RunResult × RuntimeArgs :=
  match assert_memory_cell_exists r label_a with
  | Except.error e => (.errR e, r)
  | Except.ok _ =>
    match assert_memory_cell_contains_value r label_b with
    | Except.error e => (.errR e, r)
    | Except.ok a =>
      match assert_accumulator_contains_value r a_idx with
      | Except.error e => (.errR e, r)
      | Except.ok b =>
        match op.calc a b with
        | none => (.panicR, r)
        | some res => (.okR, { r with memory_cells := setMemoryCellData r.memory_cells label_a res })

/-- Embeds `calc_memory_cell_with_memory_cells` from `instructions.rs`
(**p(i) := p(j) op p(k)**). -/
def calc_memory_cell_with_memory_cells (r : RuntimeArgs) (op : Operation)
    (label_a label_b label_c : String) : RunResult × RuntimeArgs :=
  match assert_memory_cell_exists r label_a with
  | Except.error e => (.errR e, r)
  | Except.ok _ =>
    match assert_memory_cell_contains_value r label_b with
    | Except.error e => (.errR e, r)
    | Except.ok a =>
      match assert_memory_cell_contains_value r label_c with
      | Except.error e => (.errR e, r)
      | Except.ok b =>
        match op.calc a b with
        | none => (.panicR, r)
        | some res => (.okR, { r with memory_cells := setMemoryCellData r.memory_cells label_a res })

/-- Modelled from the spec: `ControlFlow::next_instruction_index(label)` of
the missing `runtime.rs` (called `resolve_jump` in the design document): on
hit it sets the cursor to the stored index, on miss it fails with
`LabelNotFound`. -/
def ControlFlow.resolve_jump (cf : ControlFlow) (label : String) : Except String ControlFlow :=
  match cf.instruction_labels.lookup label with
  | some idx => Except.ok { cf with next_instruction_index := idx }
  | none => Except.error ("LabelNotFound: " ++ label)

/-- Embeds `goto` from `instructions.rs` (**goto label**). -/
def goto (r : RuntimeArgs) (cf : ControlFlow) (label : String) :
    RunResult × RuntimeArgs × ControlFlow :=
  match cf.resolve_jump label with
  | Except.error e => (.errR e, r, cf)
  | Except.ok cf2 => (.okR, r, cf2)

/-- Embeds `goto_if_accumulator` from `instructions.rs`
(**if a cmp b then goto label**). -/
def goto_if_accumulator (r : RuntimeArgs) (cf : ControlFlow) (comparison : Comparison)
    (label : String) (a_idx_a a_idx_b : Nat) : RunResult × RuntimeArgs × ControlFlow :=
  match assert_accumulator_contains_value r a_idx_a with
  | Except.error e => (.errR e, r, cf)
  | Except.ok a =>
    match assert_accumulator_contains_value r a_idx_b with
    | Except.error e => (.errR e, r, cf)
    | Except.ok b =>
      if comparison.cmp a b then
        match cf.resolve_jump label with
        | Except.error e => (.errR e, r, cf)
        | Except.ok cf2 => (.okR, r, cf2)
      else (.okR, r, cf)

/-- Embeds `goto_if_constant` from `instructions.rs` (**if a cmp x then goto label**). -/
def goto_if_constant (r : RuntimeArgs) (cf : ControlFlow) (comparison : Comparison)
    (label : String) (a_idx : Nat) (c : Int) : RunResult × RuntimeArgs × ControlFlow :=
  match assert_accumulator_contains_value r a_idx with
  | Except.error e => (.errR e, r, cf)
  | Except.ok a =>
    if comparison.cmp a c then
      match cf.resolve_jump label with
      | Except.error e => (.errR e, r, cf)
      | Except.ok cf2 => (.okR, r, cf2)
    else (.okR, r, cf)

/-- Embeds `goto_if_memory_cell` from `instructions.rs`
(**if a cmp p(i) then goto label**). -/
def goto_if_memory_cell (r : RuntimeArgs) (cf : ControlFlow) (comparison : Comparison)
    (label : String) (a_idx : Nat) (mcl : String) : RunResult × RuntimeArgs × ControlFlow :=
  match assert_accumulator_contains_value r a_idx with
  | Except.error e => (.errR e, r, cf)
  | Except.ok a =>
    match assert_memory_cell_contains_value r mcl with
    | Except.error e => (.errR e, r, cf)
    | Except.ok b =>
      if comparison.cmp a b then
        match cf.resolve_jump label with
        | Except.error e => (.errR e, r, cf)
        | Except.ok cf2 => (.okR, r, cf2)
      else (.okR, r, cf)

/-- Rust `{:?}` rendering of an `Option<i32>`, as used by the dump loops. -/
def formatData : Option Int → String
  | none => "None"
  | some v => "Some(" ++ toString v ++ ")"

/-- The per-slot lines emitted by `print_accumulators` in `instructions.rs`:
one line per accumulator, in vector (index) order. -/
def print_accumulators (r : RuntimeArgs) : List String :=
  r.accumulators.enum.map (fun p => toString p.1 ++ " - " ++ formatData p.2.data)

/-- The per-slot lines emitted by `print_memory_cells` in `instructions.rs`:
one line per memory cell, in the iteration order of the map (no sorting is
applied; the source carries a TODO to sort alphabetically by label). -/
def print_memory_cells (r : RuntimeArgs) : List String :=
  r.memory_cells.map (fun kv => kv.1 ++ " - " ++ formatData kv.2.data)

/-- The per-slot lines emitted by `print_stack` in `instructions.rs`:
one line per stack entry, in stack-position order. -/
def print_stack (r : RuntimeArgs) : List String :=
  r.stack.enum.map (fun p => toString p.1 ++ " - " ++ toString p.2)

/-- Embeds `Instruction::run` from `instructions.rs`: dispatches the instruction to
its implementation function.  The `Print*` instructions only write to the
console and leave the state untouched. -/
def Instruction.run (i : Instruction) (r : RuntimeArgs) (cf : ControlFlow) :
    RunResult × RuntimeArgs × ControlFlow :=
  match i with
  | .Push => match push r with | (res, r2) => (res, r2, cf)
  | .Pop => match pop r with | (res, r2) => (res, r2, cf)
  | .AssignAccumulatorValue a_idx value =>
    match assign_accumulator_value r a_idx value with | (res, r2) => (res, r2, cf)
  | .AssignAccumulatorValueFromAccumulator a_idx_a a_idx_b =>
    match assign_accumulator_value_from_accumulator r a_idx_a a_idx_b with | (res, r2) => (res, r2, cf)
  | .AssignAccumulatorValueFromMemoryCell a_idx label =>
    match assign_accumulator_value_from_memory_cell r a_idx label with | (res, r2) => (res, r2, cf)
  | .AssignMemoryCellValue label value =>
    match assign_memory_cell_value r label value with | (res, r2) => (res, r2, cf)
  | .AssignMemoryCellValueFromAccumulator label a_idx =>
    match assign_memory_cell_value_from_accumulator r label a_idx with | (res, r2) => (res, r2, cf)
  | .AssingMemoryCellValueFromMemoryCell label_a label_b =>
    match assign_memory_cell_value_from_memory_cell r label_a label_b with | (res, r2) => (res, r2, cf)
  | .CalcAccumulatorWithConstant op a_idx value =>
    match calc_accumulator_with_constant r op a_idx value with | (res, r2) => (res, r2, cf)
  | .CalcAccumulatorWithAccumulator op a_idx_a a_idx_b =>
    match calc_accumulator_with_accumulator r op a_idx_a a_idx_b with | (res, r2) => (res, r2, cf)
  | .CalcAccumulatorWithAccumulators op a_idx_a a_idx_b a_idx_c =>
    match calc_accumulator_with_accumulators r op a_idx_a a_idx_b a_idx_c with | (res, r2) => (res, r2, cf)
  | .CalcAccumulatorWithMemoryCell op a_idx label =>
    match calc_accumulator_with_memory_cell r op a_idx label with | (res, r2) => (res, r2, cf)
  | .CalcAccumulatorWithMemoryCells op a_idx label_a label_b =>
    match calc_accumulator_with_memory_cells r op a_idx label_a label_b with | (res, r2) => (res, r2, cf)
  | .CalcMemoryCellWithMemoryCellConstant op label_a label_b value =>
    match calc_memory_cell_with_memory_cell_constant r op label_a label_b value with | (res, r2) => (res, r2, cf)
  | .CalcMemoryCellWithMemoryCellAccumulator op label_a label_b a_idx =>
    match calc_memory_cell_with_memory_cell_accumulator r op label_a label_b a_idx with | (res, r2) => (res, r2, cf)
  | .CalcMemoryCellWithMemoryCells op label_a label_b label_c =>
    match calc_memory_cell_with_memory_cells r op label_a label_b label_c with | (res, r2) => (res, r2, cf)
  | .Goto label => goto r cf label
  | .GotoIfAccumulator c label a_idx_a a_idx_b => goto_if_accumulator r cf c label a_idx_a a_idx_b
  | .GotoIfConstant c label a_idx value => goto_if_constant r cf c label a_idx value
  | .GotoIfMemoryCell c label a_idx mcl => goto_if_memory_cell r cf c label a_idx mcl
  | .PrintAccumulators => (.okR, r, cf)
  | .PrintMemoryCells => (.okR, r, cf)
  | .PrintStack => (.okR, r, cf)

/-- Driver status, per the state machine Running / Halted of the spec. -/
inductive DriverState where
  | stillRunning
  | normalEnd
  | errored (msg : String)
  | panicked
deriving DecidableEq

/-- Modelled from the spec: one iteration of the driver loop of the missing
`runtime.rs` (`Runner`).  It fetches the instruction at the cursor (halting
normally when the cursor passes the program end), advances the cursor by
one, and executes the instruction, which overwrites the cursor again if it
takes a jump — so the new cursor of a taken jump is adopted and otherwise the cursor
has advanced by exactly one, as the design document requires. -/
def Runner.step (prog : List Instruction) (r : RuntimeArgs) (cf : ControlFlow) :
    DriverState × RuntimeArgs × ControlFlow :=
  match prog.get? cf.next_instruction_index with
  | none => (.normalEnd, r, cf)
  | some instr =>
    let cf1 : ControlFlow :=
      { cf with next_instruction_index := cf.next_instruction_index + 1 }
    match instr.run r cf1 with
    | (.okR, r2, cf2) => (.stillRunning, r2, cf2)
    | (.errR e, r2, cf2) => (.errored e, r2, cf2)
    | (.panicR, r2, cf2) => (.panicked, r2, cf2)

/-- Modelled from the spec: the driver loop of the missing `runtime.rs`
(`Runner::run`), with explicit fuel to stay total — the engine itself
permits unbounded loops. -/
def Runner.runFuel : Nat → List Instruction → RuntimeArgs → ControlFlow →
    DriverState × RuntimeArgs × ControlFlow
  | 0, _, r, cf => (.stillRunning, r, cf)
  | fuel + 1, prog, r, cf =>
    match Runner.step prog r cf with
    | (.stillRunning, r2, cf2) => Runner.runFuel fuel prog r2 cf2
    | out => out

/-- Boolean lexicographic comparison of code-point lists, used to state the
alphabetical ordering requirement of the specification executably. -/
def lexLe : List Nat → List Nat → Bool
  | [], _ => true
  | _ :: _, [] => false
  | a :: as, b :: bs => if a < b then true else if a = b then lexLe as bs else false

/-- Formalisation of the alphabetical (code-point lexicographic) order on
strings that the specification demands for the memory-cell dump; written
from the words of the spec, to be compared with what the code produces. -/
def alphabeticalLe (s t : String) : Bool :=
  lexLe (s.data.map Char.toNat) (t.data.map Char.toNat)

/-- A runtime state with no accumulators, no memory cells and an empty
stack (the setup of `setup_empty_runtime_args` in the tests). -/
def emptyArgs : RuntimeArgs := { accumulators := [], memory_cells := [], stack := [] }

/-- A control-flow state with an empty label table (`ControlFlow::new`). -/
def emptyCF : ControlFlow := { instruction_labels := [], next_instruction_index := 0 }

/-- A state where accumulator 0 exists but was never assigned, with an
empty stack. -/
def popUndefinedArgs : RuntimeArgs :=
  { accumulators := [{ id := 0, data := none }], memory_cells := [], stack := [] }

/-- A state where accumulator 0 exists and holds 5. -/
def divByZeroArgs : RuntimeArgs :=
  { accumulators := [{ id := 0, data := some 5 }], memory_cells := [], stack := [] }

/-- A state where accumulator 0 exists and holds 7, with an empty stack. -/
def popWitnessArgs : RuntimeArgs :=
  { accumulators := [{ id := 0, data := some 7 }], memory_cells := [], stack := [] }

/-- A state whose memory-cell store holds the cells in the order b, a
(for a `HashMap` the iteration order is arbitrary, so this order is a
legitimate store content). -/
def unsortedDumpArgs : RuntimeArgs :=
  { accumulators := [],
    memory_cells := [("b", { label := "b", data := none }),
                     ("a", { label := "a", data := none })],
    stack := [] }

/-- A state with one undefined accumulator and a nonempty stack. -/
def pushWitnessArgs : RuntimeArgs :=
  { accumulators := [{ id := 0, data := none }], memory_cells := [], stack := [5] }

/-- The doubling-loop program of `test_example_program_2`. -/
def doublingProgram : List Instruction := [
  .AssignAccumulatorValue 0 1,
  .AssignMemoryCellValue "a" 8,
  .CalcAccumulatorWithConstant .Multiplication 0 2,
  .CalcMemoryCellWithMemoryCellConstant .Minus "a" "a" 1,
  .AssignAccumulatorValueFromMemoryCell 1 "a",
  .GotoIfConstant .More "loop" 1 0,
  .PrintMemoryCells,
  .PrintAccumulators]

/-- Initial state for the doubling loop: accumulators 0 and 1 and memory
cell a are configured, all undefined. -/
def doublingArgs : RuntimeArgs :=
  { accumulators := [{ id := 0, data := none }, { id := 1, data := none }],
    memory_cells := [("a", { label := "a", data := none })],
    stack := [] }

/-- Label table binding loop to instruction index 2 (the first loop-body
instruction), cursor at 0. -/
def doublingCF : ControlFlow :=
  { instruction_labels := [("loop", 2)], next_instruction_index := 0 }

/-- One-instruction program holding a conditional jump to a label that is
not in the table. -/
def gotoProg : List Instruction := [.GotoIfAccumulator .Less "missing" 0 1]

/-- A state with accumulators 0 and 1 holding 3 and 2. -/
def gotoArgs : RuntimeArgs :=
  { accumulators := [{ id := 0, data := some 3 }, { id := 1, data := some 2 }],
    memory_cells := [], stack := [] }

/-- Claim C1: for every instruction, all read-side preconditions are
validated before any write, so whenever running an instruction returns an
error, the runtime state (all accumulators, all memory cells, the stack) is
exactly as it was before the instruction executed. -/
theorem C1_error_leaves_state_unchanged (i : Instruction) (r : RuntimeArgs)
    (cf : ControlFlow) (e : String)
    (h : (Instruction.run i r cf).1 = RunResult.errR e) :
    (Instruction.run i r cf).2.1 = r := by
  cases i <;>
    simp only [Instruction.run, push, pop, assign_accumulator_value,
      assign_accumulator_value_from_accumulator, assign_accumulator_value_from_memory_cell,
      assign_memory_cell_value, assign_memory_cell_value_from_accumulator,
      assign_memory_cell_value_from_memory_cell, calc_accumulator_with_constant,
      calc_accumulator_with_accumulator, calc_accumulator_with_accumulators,
      calc_accumulator_with_memory_cell, calc_accumulator_with_memory_cells,
      calc_memory_cell_with_memory_cell_constant, calc_memory_cell_with_memory_cell_accumulator,
      calc_memory_cell_with_memory_cells, goto, goto_if_accumulator, goto_if_constant,
      goto_if_memory_cell] at h ⊢ <;>
    (repeat' split) <;> simp_all

/-- Witness for C1 at a concrete input: running Pop with no accumulators
configured fails, and the state is returned unchanged. -/
theorem C1_error_leaves_state_unchanged_witness :
    (Instruction.run .Pop emptyArgs emptyCF).1 =
      RunResult.errR "Accumulator with index 0 does not exist!" ∧
    (Instruction.run .Pop emptyArgs emptyCF).2.1 = emptyArgs :=
  ⟨rfl, C1_error_leaves_state_unchanged .Pop emptyArgs emptyCF
    "Accumulator with index 0 does not exist!" rfl⟩

/-- Claim C2, counterexample: in a state where accumulator 0 exists (the
precondition the claim says is the only one checked) but is undefined, Pop
does not succeed — it fails with the does-not-contain-data error, refuting
the claim that Pop never fails under existence of accumulator 0. -/
theorem C2_counterexample :
    assert_accumulator_exists popUndefinedArgs 0 = Except.ok () ∧
    (pop popUndefinedArgs).1 =
      RunResult.errR "Accumulator with index 0 does not contain data!" :=
  ⟨rfl, rfl⟩

/-- Claim C2 (amended): the checked precondition of Pop is that accumulator
0 exists AND contains a value; under that precondition Pop never fails, and
executing Pop with an empty stack succeeds and assigns 0 to accumulator 0. -/
theorem C2_amended_pop_checks_definedness (r : RuntimeArgs) (v : Int)
    (h : assert_accumulator_contains_value r 0 = Except.ok v) :
    (pop r).1 = RunResult.okR ∧
    (r.stack = [] → ∃ a, (pop r).2.accumulators.get? 0 = some a ∧ a.data = some 0) := by
  obtain ⟨accs, cells, stk⟩ := r
  rcases accs with _ | ⟨a0, tl⟩
  · simp [assert_accumulator_contains_value] at h
  · rcases h0 : a0.data with _ | d
    · simp [assert_accumulator_contains_value, h0] at h
    · constructor
      · simp [pop, assert_accumulator_contains_value, h0]
      · intro hstk
        simp only at hstk
        subst hstk
        refine ⟨{ a0 with data := some 0 }, ?_, rfl⟩
        simp [pop, assert_accumulator_contains_value, h0, setAccumulatorData]

/-- Witness for the amended C2 at a concrete input: accumulator 0 defined
as 7, empty stack; Pop succeeds and accumulator 0 becomes 0. -/
theorem C2_amended_pop_checks_definedness_witness :
    (pop popWitnessArgs).1 = RunResult.okR ∧
    (popWitnessArgs.stack = [] →
      ∃ a, (pop popWitnessArgs).2.accumulators.get? 0 = some a ∧ a.data = some 0) :=
  C2_amended_pop_checks_definedness popWitnessArgs 7 rfl

/-- Claim C3, counterexample: running a division instruction with divisor 0
on defined operands ends in a panic (an abort), not in an error value
returned to the caller — no DivisionByZero result is propagated, refuting
the recoverable-result-propagation part of the claim. -/
theorem C3_counterexample :
    ((Instruction.CalcAccumulatorWithConstant Operation.Division 0 0).run
        divByZeroArgs emptyCF).1 = RunResult.panicR ∧
    RunResult.isError
      ((Instruction.CalcAccumulatorWithConstant Operation.Division 0 0).run
        divByZeroArgs emptyCF).1 = false := by
  decide

/-- Claim C3 (amended): Operation.calc with the division operator fails
when the divisor is 0, but the failure is a panic that aborts the run, not
a DivisionByZero error value returned to the caller — the error channel
carries only precondition-violation messages and has no DivisionByZero
variant; division likewise aborts at i32::MIN / -1.  Addition, subtraction
and multiplication never produce an error value either: on
i32-representable results they succeed exactly, and an overflow aborts
(checked builds) or wraps (release builds) rather than returning an
error. -/
theorem C3_amended_division_panics (x y : Int) (r : RuntimeArgs) (cf : ControlFlow)
    (idx : Nat) (v : Int)
    (hs : inI32 (x + y) = true) (hd : inI32 (x - y) = true)
    (hm : inI32 (x * y) = true)
    (h : assert_accumulator_contains_value r idx = Except.ok v) :
    Operation.calc .Plus x y = some (x + y) ∧
    Operation.calc .Minus x y = some (x - y) ∧
    Operation.calc .Multiplication x y = some (x * y) ∧
    Operation.calc .Division x 0 = none ∧
    Operation.calc .Division i32Min (-1) = none ∧
    ((Instruction.CalcAccumulatorWithConstant .Division idx 0).run r cf).1 =
      RunResult.panicR ∧
    RunResult.isError
      ((Instruction.CalcAccumulatorWithConstant .Division idx 0).run r cf).1 = false := by
  refine ⟨by simp [Operation.calc, hs], by simp [Operation.calc, hd],
    by simp [Operation.calc, hm], by simp [Operation.calc], by decide, ?_, ?_⟩ <;>
    simp [Instruction.run, calc_accumulator_with_constant, h, Operation.calc,
      RunResult.isError]

/-- Witness for the amended C3 at a concrete input. -/
theorem C3_amended_division_panics_witness :
    Operation.calc .Plus 3 2 = some 5 ∧
    Operation.calc .Minus 3 2 = some 1 ∧
    Operation.calc .Multiplication 3 2 = some 6 ∧
    Operation.calc .Division 3 0 = none ∧
    Operation.calc .Division i32Min (-1) = none ∧
    ((Instruction.CalcAccumulatorWithConstant .Division 0 0).run divByZeroArgs emptyCF).1 =
      RunResult.panicR ∧
    RunResult.isError
      ((Instruction.CalcAccumulatorWithConstant .Division 0 0).run divByZeroArgs emptyCF).1 =
      false := by
  have h := C3_amended_division_panics 3 2 divByZeroArgs emptyCF 0 5
    (by decide) (by decide) (by decide) rfl
  simpa using h

/-- Claim C4: for every conditional goto whose operands exist and are
defined, a false guard makes the driver step succeed with the cursor
advanced by exactly 1 regardless of whether the target label exists; a true
guard with an unknown label fails with LabelNotFound; a true guard with a
known label sets the cursor to the stored index. -/
theorem C4_conditional_goto :
    (∀ (prog : List Instruction) (r : RuntimeArgs) (cf : ControlFlow) (c : Comparison)
        (lbl : String) (i j : Nat) (a b : Int),
      prog.get? cf.next_instruction_index = some (.GotoIfAccumulator c lbl i j) →
      assert_accumulator_contains_value r i = Except.ok a →
      assert_accumulator_contains_value r j = Except.ok b →
      ((c.cmp a b = false →
          Runner.step prog r cf =
            (DriverState.stillRunning, r,
              { cf with next_instruction_index := cf.next_instruction_index + 1 })) ∧
       (c.cmp a b = true → cf.instruction_labels.lookup lbl = none →
          (Runner.step prog r cf).1 = DriverState.errored ("LabelNotFound: " ++ lbl)) ∧
       (∀ t, c.cmp a b = true → cf.instruction_labels.lookup lbl = some t →
          Runner.step prog r cf =
            (DriverState.stillRunning, r, { cf with next_instruction_index := t })))) ∧
    (∀ (prog : List Instruction) (r : RuntimeArgs) (cf : ControlFlow) (c : Comparison)
        (lbl : String) (i : Nat) (k : Int) (a : Int),
      prog.get? cf.next_instruction_index = some (.GotoIfConstant c lbl i k) →
      assert_accumulator_contains_value r i = Except.ok a →
      ((c.cmp a k = false →
          Runner.step prog r cf =
            (DriverState.stillRunning, r,
              { cf with next_instruction_index := cf.next_instruction_index + 1 })) ∧
       (c.cmp a k = true → cf.instruction_labels.lookup lbl = none →
          (Runner.step prog r cf).1 = DriverState.errored ("LabelNotFound: " ++ lbl)) ∧
       (∀ t, c.cmp a k = true → cf.instruction_labels.lookup lbl = some t →
          Runner.step prog r cf =
            (DriverState.stillRunning, r, { cf with next_instruction_index := t })))) ∧
    (∀ (prog : List Instruction) (r : RuntimeArgs) (cf : ControlFlow) (c : Comparison)
        (lbl : String) (i : Nat) (mcl : String) (a b : Int),
      prog.get? cf.next_instruction_index = some (.GotoIfMemoryCell c lbl i mcl) →
      assert_accumulator_contains_value r i = Except.ok a →
      assert_memory_cell_contains_value r mcl = Except.ok b →
      ((c.cmp a b = false →
          Runner.step prog r cf =
            (DriverState.stillRunning, r,
              { cf with next_instruction_index := cf.next_instruction_index + 1 })) ∧
       (c.cmp a b = true → cf.instruction_labels.lookup lbl = none →
          (Runner.step prog r cf).1 = DriverState.errored ("LabelNotFound: " ++ lbl)) ∧
       (∀ t, c.cmp a b = true → cf.instruction_labels.lookup lbl = some t →
          Runner.step prog r cf =
            (DriverState.stillRunning, r, { cf with next_instruction_index := t })))) := by
  refine ⟨?_, ?_, ?_⟩
  · intro prog r cf c lbl i j a b hp ha hb
    rw [List.get?_eq_getElem?] at hp
    refine ⟨?_, ?_, ?_⟩
    · intro hc
      simp [Runner.step, hp, Instruction.run, goto_if_accumulator, ha, hb, hc]
    · intro hc hl
      simp [Runner.step, hp, Instruction.run, goto_if_accumulator, ha, hb, hc,
        ControlFlow.resolve_jump, hl]
    · intro t hc hl
      simp [Runner.step, hp, Instruction.run, goto_if_accumulator, ha, hb, hc,
        ControlFlow.resolve_jump, hl]
  · intro prog r cf c lbl i k a hp ha
    rw [List.get?_eq_getElem?] at hp
    refine ⟨?_, ?_, ?_⟩
    · intro hc
      simp [Runner.step, hp, Instruction.run, goto_if_constant, ha, hc]
    · intro hc hl
      simp [Runner.step, hp, Instruction.run, goto_if_constant, ha, hc,
        ControlFlow.resolve_jump, hl]
    · intro t hc hl
      simp [Runner.step, hp, Instruction.run, goto_if_constant, ha, hc,
        ControlFlow.resolve_jump, hl]
  · intro prog r cf c lbl i mcl a b hp ha hb
    rw [List.get?_eq_getElem?] at hp
    refine ⟨?_, ?_, ?_⟩
    · intro hc
      simp [Runner.step, hp, Instruction.run, goto_if_memory_cell, ha, hb, hc]
    · intro hc hl
      simp [Runner.step, hp, Instruction.run, goto_if_memory_cell, ha, hb, hc,
        ControlFlow.resolve_jump, hl]
    · intro t hc hl
      simp [Runner.step, hp, Instruction.run, goto_if_memory_cell, ha, hb, hc,
        ControlFlow.resolve_jump, hl]

/-- Witness for C4 at a concrete input: a false guard (3 < 2) with a label
that is not in the table; the step succeeds and the cursor advances to 1. -/
theorem C4_conditional_goto_witness :
    Runner.step gotoProg gotoArgs emptyCF =
      (DriverState.stillRunning, gotoArgs,
        { emptyCF with next_instruction_index := 1 }) :=
  (C4_conditional_goto.1 gotoProg gotoArgs emptyCF .Less "missing" 0 1 3 2
    rfl rfl rfl).1 rfl

/-- Claim C5, counterexample: for AssignAccumulatorValueFromAccumulator on
the empty state both the destination (0) and the source (1) preconditions
are violated, yet the returned error is the one for the source, not the
destination the claim lists first. -/
theorem C5_counterexample :
    assert_accumulator_exists emptyArgs 0 =
      Except.error "Accumulator with index 0 does not exist!" ∧
    assert_accumulator_contains_value emptyArgs 1 =
      Except.error "Accumulator with index 1 does not exist!" ∧
    (assign_accumulator_value_from_accumulator emptyArgs 0 1).1 =
      RunResult.errR "Accumulator with index 1 does not exist!" :=
  ⟨rfl, rfl, rfl⟩

/-- Claim C5 (amended): the assign accumulator-from-accumulator instruction
checks the source (existence and definedness) first and returns its error
when both preconditions are violated; the other two-operand assign
instructions check destination existence first; the calc instructions with
a distinct destination (a := b op c and a := p(i) op p(j)) check destination
existence before the operand sources. -/
theorem C5_amended_check_order :
    (∀ (r : RuntimeArgs) (a b : Nat) (e : String),
      assert_accumulator_contains_value r b = Except.error e →
      (assign_accumulator_value_from_accumulator r a b).1 = RunResult.errR e) ∧
    (∀ (r : RuntimeArgs) (a : Nat) (lbl : String) (e : String),
      assert_accumulator_exists r a = Except.error e →
      (assign_accumulator_value_from_memory_cell r a lbl).1 = RunResult.errR e) ∧
    (∀ (r : RuntimeArgs) (lbl : String) (i : Nat) (e : String),
      assert_memory_cell_exists r lbl = Except.error e →
      (assign_memory_cell_value_from_accumulator r lbl i).1 = RunResult.errR e) ∧
    (∀ (r : RuntimeArgs) (la lb : String) (e : String),
      assert_memory_cell_exists r la = Except.error e →
      (assign_memory_cell_value_from_memory_cell r la lb).1 = RunResult.errR e) ∧
    (∀ (r : RuntimeArgs) (op : Operation) (a b c : Nat) (e : String),
      assert_accumulator_exists r a = Except.error e →
      (calc_accumulator_with_accumulators r op a b c).1 = RunResult.errR e) ∧
    (∀ (r : RuntimeArgs) (op : Operation) (a : Nat) (la lb : String) (e : String),
      assert_accumulator_exists r a = Except.error e →
      (calc_accumulator_with_memory_cells r op a la lb).1 = RunResult.errR e) := by
  refine ⟨?_, ?_, ?_, ?_, ?_, ?_⟩ <;> intro r <;> intros <;>
    simp [assign_accumulator_value_from_accumulator,
      assign_accumulator_value_from_memory_cell,
      assign_memory_cell_value_from_accumulator,
      assign_memory_cell_value_from_memory_cell,
      calc_accumulator_with_accumulators,
      calc_accumulator_with_memory_cells, *]

/-- Witness for the amended C5 at a concrete input. -/
theorem C5_amended_check_order_witness :
    (assign_accumulator_value_from_accumulator emptyArgs 0 1).1 =
      RunResult.errR "Accumulator with index 1 does not exist!" :=
  C5_amended_check_order.1 emptyArgs 0 1
    "Accumulator with index 1 does not exist!" rfl

/-- Claim C6: Comparison.cmp is total over any two integers for all five
operators and never fails; cmp(5, 10) gives Less=true, LessOrEqual=true,
Equal=false, MoreOrEqual=false, More=false, and cmp(5, 5) gives Equal=true,
LessOrEqual=true, MoreOrEqual=true, Less=false, More=false. -/
theorem C6_comparison_total_and_table :
    (∀ (c : Comparison) (x y : Int), c.cmp x y = true ∨ c.cmp x y = false) ∧
    Comparison.cmp .Less 5 10 = true ∧
    Comparison.cmp .LessOrEqual 5 10 = true ∧
    Comparison.cmp .Equal 5 10 = false ∧
    Comparison.cmp .MoreOrEqual 5 10 = false ∧
    Comparison.cmp .More 5 10 = false ∧
    Comparison.cmp .Equal 5 5 = true ∧
    Comparison.cmp .LessOrEqual 5 5 = true ∧
    Comparison.cmp .MoreOrEqual 5 5 = true ∧
    Comparison.cmp .Less 5 5 = false ∧
    Comparison.cmp .More 5 5 = false := by
  refine ⟨fun c x y => Bool.eq_false_or_eq_true (c.cmp x y), ?_⟩
  decide

/-- Claim C7, counterexample: the arithmetic is i32 arithmetic, not exact
unbounded-integer arithmetic — at representable inputs whose exact result
does not fit in i32, addition does not produce the exact sum (it aborts,
or wraps in release builds), and division by the nonzero divisor -1 at
i32::MIN aborts instead of returning the truncated quotient 2^31. -/
theorem C7_counterexample :
    Operation.calc .Plus 2147483647 1 = none ∧
    Operation.calc .Plus 2147483647 1 ≠ some (2147483647 + 1) ∧
    Operation.calc .Division (-2147483648) (-1) = none ∧
    Operation.calc .Division (-2147483648) (-1) ≠
      some (Int.tdiv (-2147483648) (-1)) := by
  decide

/-- Claim C7 (amended): for i32-representable x and y, Operation.calc
computes the exact sum, difference and product whenever that exact result
is itself i32-representable (on overflow it aborts or wraps instead), and
for every nonzero divisor y with (x, y) distinct from (i32::MIN, -1)
division returns the quotient truncated toward zero — its magnitude the
natural quotient of the magnitudes, its sign the product of the signs —
so 20 div 5 = 4 and -7 div 2 = -3 rounds toward zero; at (i32::MIN, -1)
the quotient 2^31 is unrepresentable and division aborts. -/
theorem C7_operation_arithmetic (x y : Int)
    (hx : inI32 x = true) (hy : inI32 y = true) (hy0 : y ≠ 0)
    (hnm : ¬(x = i32Min ∧ y = -1)) :
    (inI32 (x + y) = true → Operation.calc .Plus x y = some (x + y)) ∧
    (inI32 (x - y) = true → Operation.calc .Minus x y = some (x - y)) ∧
    (inI32 (x * y) = true → Operation.calc .Multiplication x y = some (x * y)) ∧
    Operation.calc .Division x y = some (Int.tdiv x y) ∧
    Int.tdiv x y = Int.sign x * Int.sign y * ((x.natAbs / y.natAbs : Nat) : Int) ∧
    Operation.calc .Division 20 5 = some 4 ∧
    Operation.calc .Division (-7) 2 = some (-3) ∧
    Operation.calc .Division 7 (-2) = some (-3) := by
  have htr : inI32 (Int.tdiv x y) = true := by
    have hb : (Int.tdiv x y).natAbs = x.natAbs / y.natAbs := Int.natAbs_tdiv x y
    simp only [inI32, i32Min, i32Max, Bool.and_eq_true, decide_eq_true_eq] at hx hy ⊢
    simp only [i32Min] at hnm
    by_cases hxm : x = -2147483648
    · subst hxm
      by_cases hy1 : y = 1
      · subst hy1
        rw [Int.tdiv_one]
        omega
      · have hym1 : y ≠ -1 := by
          intro hcon
          exact hnm ⟨rfl, hcon⟩
        have hy2 : 2 ≤ y.natAbs := by omega
        have hxa : (-2147483648 : Int).natAbs = 2147483648 := by decide
        have hdle : (2147483648 : Nat) / y.natAbs ≤ 2147483648 / 2 :=
          Nat.div_le_div_left hy2 (by norm_num)
        have hq : (Int.tdiv (-2147483648) y).natAbs ≤ 1073741824 := by
          rw [hb, hxa]
          simpa using hdle
        omega
    · have hq : (Int.tdiv x y).natAbs ≤ x.natAbs := by
        rw [hb]
        exact Nat.div_le_self _ _
      omega
  refine ⟨fun hs => by simp [Operation.calc, hs], fun hd => by simp [Operation.calc, hd],
    fun hm => by simp [Operation.calc, hm], by simp [Operation.calc, hy0, htr],
    ?_, by decide, by decide, by decide⟩
  rcases x with m | m <;> rcases y with n | n
  case ofNat.ofNat =>
    rcases m with _ | m <;> rcases n with _ | n <;>
      simp_all [Int.tdiv, Int.sign, Int.natAbs]
  case ofNat.negSucc =>
    rcases m with _ | m <;> simp_all [Int.tdiv, Int.sign, Int.natAbs]
  case negSucc.ofNat =>
    rcases n with _ | n <;> simp_all [Int.tdiv, Int.sign, Int.natAbs]
  case negSucc.negSucc =>
    simp_all [Int.tdiv, Int.sign, Int.natAbs]

/-- Witness for the amended C7 at a concrete input (x = -7, y = 2), with
every hypothesis of the theorem discharged there. -/
theorem C7_operation_arithmetic_witness :
    Operation.calc .Plus (-7) 2 = some (-5) ∧
    Operation.calc .Minus (-7) 2 = some (-9) ∧
    Operation.calc .Multiplication (-7) 2 = some (-14) ∧
    Operation.calc .Division (-7) 2 = some (Int.tdiv (-7) 2) ∧
    Int.tdiv (-7) 2 =
      Int.sign (-7) * Int.sign 2 * (((-7 : Int).natAbs / (2 : Int).natAbs : Nat) : Int) ∧
    Operation.calc .Division 20 5 = some 4 ∧
    Operation.calc .Division (-7) 2 = some (-3) ∧
    Operation.calc .Division 7 (-2) = some (-3) := by
  have h := C7_operation_arithmetic (-7) 2 (by decide) (by decide) (by decide) (by decide)
  obtain ⟨h1, h2, h3, h4, h5, h6, h7, h8⟩ := h
  exact ⟨by simpa using h1 (by decide), by simpa using h2 (by decide),
    by simpa using h3 (by decide), h4, h5, h6, h7, h8⟩

/-- Claim C8: running the doubling-loop program (a0 := 1; p(a) := 8; loop:
a0 := a0 x 2; p(a) := p(a) - 1; a1 := p(a); if a1 > 0 goto loop; prints)
from cursor 0 on a machine with accumulators 0, 1 and cell a configured
terminates normally with final accumulator 0 equal to 256. -/
theorem C8_doubling_loop :
    (Runner.runFuel 40 doublingProgram doublingArgs doublingCF).1 =
      DriverState.normalEnd ∧
    ((Runner.runFuel 40 doublingProgram doublingArgs doublingCF).2.1.accumulators.map
      (fun a => a.data)).get? 0 = some (some 256) := by
  decide

/-- Claim C9, code evidence: the memory-cell dump emits one line per
configured cell showing label and value, but in the stored iteration order
of the map, not sorted alphabetically — with the cells stored in the order
b, a the dump lines come out in that order, violating the label-sorted
requirement (the source carries a TODO admitting the sort is missing).  The
accumulator and stack dumps are in index and stack-position order. -/
theorem C9_memory_dump_not_sorted :
    print_memory_cells unsortedDumpArgs = ["b - None", "a - None"] ∧
    ¬ List.Pairwise (fun s t => alphabeticalLe s t = true)
        (print_memory_cells unsortedDumpArgs) ∧
    (∀ r : RuntimeArgs, (print_memory_cells r).length = r.memory_cells.length) ∧
    (∀ r : RuntimeArgs, (print_accumulators r).length = r.accumulators.length) ∧
    (∀ r : RuntimeArgs, (print_stack r).length = r.stack.length) := by
  refine ⟨by decide, by decide, ?_, ?_, ?_⟩ <;>
    intro r <;> simp [print_memory_cells, print_accumulators, print_stack]

/-- Claim C10: if accumulator 0 exists but was never assigned, Push does
not fail; it succeeds and pushes the default value 0 onto the stack. -/
theorem C10_push_undefined_pushes_zero (r : RuntimeArgs) (a : Accumulator)
    (h : r.accumulators.get? 0 = some a) (hdata : a.data = none) :
    push r = (RunResult.okR, { r with stack := r.stack ++ [0] }) := by
  obtain ⟨accs, cells, stk⟩ := r
  rcases accs with _ | ⟨a0, tl⟩
  · simp at h
  · simp only [List.get?] at h
    obtain rfl : a0 = a := by injection h
    simp [push, assert_accumulator_exists, hdata]

/-- Witness for C10 at a concrete input: one undefined accumulator, stack
[5]; Push succeeds and the stack becomes [5, 0]. -/
theorem C10_push_undefined_pushes_zero_witness :
    push pushWitnessArgs =
      (RunResult.okR, { pushWitnessArgs with stack := pushWitnessArgs.stack ++ [0] }) :=
  C10_push_undefined_pushes_zero pushWitnessArgs { id := 0, data := none } rfl rfl

end RustAlpha
